import Mathlib

/-!
Verification of the Guesscasso round controller (the `Game` component),
shallowly embedded from the source. The component keeps: a phase string
(`initial`, `loading`, `running`, `ended`), the countdown `timeLeft`, the
current reveal frame index, the image data (frame list plus a per-index
loaded map whose values are only ever written as `true`), and the session
context (score, round counter, categories, correct words). The timer is a
1-second interval that is only installed once the phase is `running` and
`allImagesReady` holds, and whose callback decrements `timeLeft`,
recomputes the frame index from the pre-tick value mirrored in
`timeLeftRef`, and ends the round when the decrement reaches zero.
-/

namespace Guesscasso

/-- Round duration in seconds (`TIME_PER_ROUND = 20`). -/
def TIME_PER_ROUND : Nat := 20

/-- Number of reveal frames per round (`NUM_IMAGES = 10`). -/
def NUM_IMAGES : Nat := 10

/-- The four values of the `gameState` string. -/
inductive Phase where
  | initial
  | loading
  | running
  | ended
deriving DecidableEq, Repr

/-- Frame index mapper, from the tick callback:
`divisor = Math.floor(TIME_PER_ROUND / NUM_IMAGES)` and
`newImageIndex = Math.min(Math.floor(timeElapsed / divisor), NUM_IMAGES - 1)`.
JavaScript `Math.floor` on the quotient of non-negative integers is
truncating division, i.e. `Nat` division. -/
def imageIndex (timeElapsed roundDuration numImages : Nat) : Nat :=
  let divisor := roundDuration / numImages
  min (timeElapsed / divisor) (numImages - 1)

/-- State of the `Game` component together with the session context it
consumes. `loaded` stands for the JavaScript object `imageData.loaded`:
its two writers (`handleImageLoad`, `handleImageError`) only ever store
`true`, so the object is fully described by its key set, kept here as a
`Finset Nat`. `endedByTimeout` is bookkeeping recording which code path
issued the most recent `stopGame` (`true` for the timer callback, `false`
for the correct-guess branch of `checkAnswer`); the component itself keeps
no such flag. -/
structure GState where
  gameState : Phase
  timeLeft : Nat
  guess : String
  currentImageIndex : Nat
  images : List String
  loaded : Finset Nat
  score : Nat
  numRounds : Nat
  categories : List String
  correctWords : List String
  endedByTimeout : Bool
deriving DecidableEq

/-- `allImagesReady`, from the component:
returns `false` when `imageData.images.length === 0`; otherwise requires
`Object.keys(imageData.loaded).length === imageData.images.length` and all
stored values `true`. Since the two writers only store `true`, the
`every` condition holds of any reachable map and the check reduces to the
key count. -/
def allImagesReady (images : List String) (loaded : Finset Nat) : Bool :=
  if images.length = 0 then false
  else loaded.card == images.length

/-- `handleImageLoad(index)`: sets `loaded[index] = true` via object
spread, i.e. inserts the key. -/
def handleImageLoad (index : Nat) (loaded : Finset Nat) : Finset Nat :=
  insert index loaded

/-- `handleImageError(index)`: logs to the console and then performs
exactly the same update as `handleImageLoad`. -/
def handleImageError (index : Nat) (loaded : Finset Nat) : Finset Nat :=
  insert index loaded

/-- The timer is armed exactly when the main-loop effect installs the
interval: `if (!isGameRunning || !allImagesReady) return;` guards the
installation, and the callback itself re-checks `isGameRunningRef`. -/
def tickEnabled (st : GState) : Bool :=
  decide (st.gameState = Phase.running) && allImagesReady st.images st.loaded

/-- One firing of the interval callback. When armed: `setTimeLeft` ends
the round (`stopGame`, i.e. `gameState := ended`) and resets the stored
value to `TIME_PER_ROUND` when `prevTime - 1 <= 0`, otherwise stores
`prevTime - 1`; then, unconditionally, `setCurrentImageIndex` is computed
from `timeElapsed = TIME_PER_ROUND - timeLeftRef.current`, where
`timeLeftRef` still mirrors the pre-tick value inside the same callback.
When not armed no interval exists (or the callback returns after
clearing), so the state is unchanged. -/
def applyTick (st : GState) : GState :=
  if tickEnabled st then
    let newIndex := imageIndex (TIME_PER_ROUND - st.timeLeft) TIME_PER_ROUND NUM_IMAGES
    if st.timeLeft - 1 = 0 then
      { st with gameState := Phase.ended, timeLeft := TIME_PER_ROUND,
                currentImageIndex := newIndex, endedByTimeout := true }
    else
      { st with timeLeft := st.timeLeft - 1, currentImageIndex := newIndex }
  else st

/-- Modelled from the spec: the Session Store (`gameContext.js`) is
imported by the component but its file is not among the sources; per the
spec, `addScore(delta)` adds `delta` to the cumulative score. -/
def addToScore (score delta : Nat) : Nat :=
  score + delta

/-- Modelled from the spec: the Session Store round counter increments
once per round start. -/
def incrementRounds (numRounds : Nat) : Nat :=
  numRounds + 1

/-- Outcome of the asynchronous answer-evaluation request made by
`checkAnswer`: the response arrived with `score == 1`, it arrived with
any other score, or the request or JSON parsing threw. -/
inductive EvalOutcome where
  | correct
  | incorrect
  | failed
deriving DecidableEq

/-- Resolution of `checkAnswer` applied at the state current when the
evaluation response arrives. On `data.score == 1` it runs
`addToScore(timeLeftRef.current * 10)` followed by `stopGame()`, with no
re-check of the game state; on any other score it does nothing; on an
exception the `catch` block only logs to the console. The second
component is what `checkAnswer` surfaces to its caller beyond the state
update: always `none`, since the function neither returns a result nor
rethrows. -/
def checkAnswer (st : GState) (outcome : EvalOutcome) : GState × Option String :=
  match outcome with
  | EvalOutcome.correct =>
      ({ st with score := addToScore st.score (st.timeLeft * 10),
                 gameState := Phase.ended, endedByTimeout := false }, none)
  | EvalOutcome.incorrect => (st, none)
  | EvalOutcome.failed => (st, none)

/-- `handleAction(submittedGuess)`: calls `checkAnswer` exactly when
`isGameRunning`, i.e. when the phase equals `running`. The boolean records
whether the Answer Evaluation Adapter was invoked. -/
def handleAction (st : GState) (outcome : EvalOutcome) : GState × Bool :=
  if st.gameState = Phase.running then ((checkAnswer st outcome).1, true)
  else (st, false)

/-- The payload `fetchImage` reads from `GET /api/generate`. -/
structure RoundPayload where
  images : List String
  categories : List String
  correctWords : List String

/-- `startGame` followed by the resolution of its awaited `fetchImage`.
It first sets `gameState := loading`, resets `timeLeft`, increments the
round counter, clears the guess, frame index, image data, categories and
correct words. `fetchImage` then either resolves — storing the payload
fields, after which `startGame` sets `gameState := running` — or throws;
`fetchImage` rethrows and `startGame` has no catch, so on failure the
final `setGameState` call to `running` is never reached and no further state
update happens. -/
def startGame (st : GState) (res : Except String RoundPayload) : GState :=
  let st1 : GState :=
    { st with gameState := Phase.loading, timeLeft := TIME_PER_ROUND,
              numRounds := incrementRounds st.numRounds, guess := "",
              currentImageIndex := 0, images := [], loaded := ∅,
              categories := [], correctWords := [] }
  match res with
  | Except.ok d =>
      { st1 with images := d.images, categories := d.categories,
                 correctWords := d.correctWords, gameState := Phase.running }
  | Except.error _ => st1

/-- What the render exposes as the correct answer pair: the block showing
`correctWords[0]` and `correctWords[1]` is rendered only when
`imageData.images.length !== 0`, `isGameEnded` and
`correctWords.length > 0`. -/
def exposedAnswer (st : GState) : Option (String × String) :=
  if st.images.length ≠ 0 ∧ st.gameState = Phase.ended ∧ 0 < st.correctWords.length then
    some (st.correctWords.getD 0 "", st.correctWords.getD 1 "")
  else none

/-- Claim C3: the frame index mapper at `roundDuration = 20`,
`frameCount = 10` computes `min (elapsed / 2) 9`; on `[0, 19]` it equals
`elapsed / 2`; it is monotone in `elapsed`; and it is clamped to `9` from
`elapsed = 19` on. -/
theorem imageIndex_spec (elapsed : Nat) :
    imageIndex elapsed 20 10 = min (elapsed / 2) 9 ∧
    (elapsed ≤ 19 → imageIndex elapsed 20 10 = elapsed / 2) ∧
    imageIndex elapsed 20 10 ≤ imageIndex (elapsed + 1) 20 10 ∧
    (19 ≤ elapsed → imageIndex elapsed 20 10 = 9) := by
  unfold imageIndex
  refine ⟨?_, ?_, ?_, ?_⟩ <;> simp only [] <;> omega

/-- Witness for C3 at `elapsed = 19`. -/
theorem imageIndex_spec_at_19 :
    imageIndex 19 20 10 = min (19 / 2) 9 ∧ 19 ≤ 19 ∧ imageIndex 19 20 10 = 9 :=
  ⟨(imageIndex_spec 19).1, le_refl 19, (imageIndex_spec 19).2.2.2 (le_refl 19)⟩

/-- A concrete 10-frame image list, as delivered for a round. -/
def imgs10 : List String :=
  ["f0", "f1", "f2", "f3", "f4", "f5", "f6", "f7", "f8", "f9"]

/-- A concrete state at the start of a truly active round: phase
`running`, all ten frames marked loaded, full time remaining. -/
def exRun : GState :=
  { gameState := Phase.running, timeLeft := TIME_PER_ROUND, guess := "",
    currentImageIndex := 0, images := imgs10, loaded := Finset.range 10,
    score := 0, numRounds := 1, categories := ["bird", "fruit"],
    correctWords := ["eagle", "banana"], endedByTimeout := false }

/-- A concrete state in the active-awaiting-preload sub-phase: phase
`running` but only nine of the ten frames marked loaded. -/
def exAwait : GState :=
  { exRun with loaded := Finset.range 9 }

/-- Claim C1: while the round is in the active-awaiting-preload
sub-phase — `gameState` is `running` but `allImagesReady` is false — the
interval is never installed, so a tick changes nothing; in particular the
time remaining is not decremented. -/
theorem tick_waits_for_preload (st : GState)
    (hg : st.gameState = Phase.running)
    (hr : allImagesReady st.images st.loaded = false) :
    applyTick st = st := by
  simp [applyTick, tickEnabled, hr]

/-- Witness for C1: a concrete `running` state with one frame still
unloaded is left untouched by a tick. -/
theorem tick_waits_for_preload_witness :
    exAwait.gameState = Phase.running ∧
    allImagesReady exAwait.images exAwait.loaded = false ∧
    applyTick exAwait = exAwait :=
  ⟨rfl, by decide, tick_waits_for_preload exAwait rfl (by decide)⟩

/-- Claim C10: a tick that fires with `timeLeft - 1 <= 0` performs the
timeout transition and stores `TIME_PER_ROUND = 20` back into the time
remaining rather than `0`. -/
theorem timeout_tick_resets_time (st : GState)
    (he : tickEnabled st = true) (ht : st.timeLeft - 1 = 0) :
    (applyTick st).gameState = Phase.ended ∧
    (applyTick st).endedByTimeout = true ∧
    (applyTick st).timeLeft = 20 := by
  simp [applyTick, he, ht, TIME_PER_ROUND]

/-- Witness for C10: the timeout tick from one second remaining leaves
the stored time at `20`. -/
theorem timeout_tick_resets_time_witness :
    tickEnabled { exRun with timeLeft := 1 } = true ∧
    ((applyTick { exRun with timeLeft := 1 }).gameState = Phase.ended ∧
     (applyTick { exRun with timeLeft := 1 }).endedByTimeout = true ∧
     (applyTick { exRun with timeLeft := 1 }).timeLeft = 20) :=
  ⟨by decide, timeout_tick_resets_time { exRun with timeLeft := 1 } (by decide) (by decide)⟩

/-- Claim C4: while the round is `running`, a positive evaluation adds
exactly `timeLeft * 10` to the score and ends the round with the timeout
flag false, after which no further tick is applied; a negative
evaluation changes nothing at all. -/
theorem checkAnswer_active_spec (st : GState)
    (hg : st.gameState = Phase.running) :
    ((checkAnswer st EvalOutcome.correct).1.score = st.score + st.timeLeft * 10 ∧
     (checkAnswer st EvalOutcome.correct).1.gameState = Phase.ended ∧
     (checkAnswer st EvalOutcome.correct).1.endedByTimeout = false ∧
     (checkAnswer st EvalOutcome.correct).1.timeLeft = st.timeLeft ∧
     applyTick (checkAnswer st EvalOutcome.correct).1 = (checkAnswer st EvalOutcome.correct).1) ∧
    (checkAnswer st EvalOutcome.incorrect).1 = st := by
  refine ⟨⟨rfl, rfl, rfl, rfl, ?_⟩, rfl⟩
  simp [applyTick, tickEnabled, checkAnswer]

/-- Witness for C4, the spec scenario: after 15 ticks of the concrete
round the time remaining is 5, and a positive evaluation then yields a
score of exactly 50, ends the round without timeout, and a 16th tick is
not applied. -/
theorem checkAnswer_active_spec_witness :
    (applyTick^[15] exRun).timeLeft = 5 ∧
    (applyTick^[15] exRun).score = 0 ∧
    (((checkAnswer (applyTick^[15] exRun) EvalOutcome.correct).1.score =
        (applyTick^[15] exRun).score + (applyTick^[15] exRun).timeLeft * 10 ∧
      (checkAnswer (applyTick^[15] exRun) EvalOutcome.correct).1.gameState = Phase.ended ∧
      (checkAnswer (applyTick^[15] exRun) EvalOutcome.correct).1.endedByTimeout = false ∧
      (checkAnswer (applyTick^[15] exRun) EvalOutcome.correct).1.timeLeft =
        (applyTick^[15] exRun).timeLeft ∧
      applyTick (checkAnswer (applyTick^[15] exRun) EvalOutcome.correct).1 =
        (checkAnswer (applyTick^[15] exRun) EvalOutcome.correct).1) ∧
     (checkAnswer (applyTick^[15] exRun) EvalOutcome.incorrect).1 = applyTick^[15] exRun) :=
  ⟨by decide, by decide, checkAnswer_active_spec (applyTick^[15] exRun) (by decide)⟩

/-- Claim C6: with `N` registered frames (`N > 0`) and marks drawn from
the frame indices, `allImagesReady` holds iff every one of the `N`
indices is marked; a failed load marks exactly as a successful one does;
and re-marking an index is idempotent. -/
theorem preload_barrier_spec (N : Nat) (imgs : List String) (marks : Finset Nat) (i : Nat)
    (hlen : imgs.length = N) (hN : 0 < N) (hsub : marks ⊆ Finset.range N) :
    (allImagesReady imgs marks = true ↔ ∀ j, j < N → j ∈ marks) ∧
    handleImageError i marks = handleImageLoad i marks ∧
    handleImageLoad i (handleImageLoad i marks) = handleImageLoad i marks := by
  refine ⟨?_, rfl, Finset.insert_idem i marks⟩
  simp only [allImagesReady, hlen, beq_iff_eq, if_neg hN.ne']
  constructor
  · intro hcard
    have hmarks : marks = Finset.range N :=
      Finset.eq_of_subset_of_card_le hsub (by rw [Finset.card_range, hcard])
    intro j hj
    rw [hmarks]
    exact Finset.mem_range.mpr hj
  · intro h
    have hsup : Finset.range N ⊆ marks := fun j hj => h j (Finset.mem_range.mp hj)
    rw [Finset.Subset.antisymm hsub hsup, Finset.card_range]

/-- Witness for C6 at `N = 10` with all ten indices marked. -/
theorem preload_barrier_spec_witness :
    (allImagesReady imgs10 (Finset.range 10) = true ↔ ∀ j, j < 10 → j ∈ Finset.range 10) ∧
    handleImageError 3 (Finset.range 10) = handleImageLoad 3 (Finset.range 10) ∧
    handleImageLoad 3 (handleImageLoad 3 (Finset.range 10)) =
      handleImageLoad 3 (Finset.range 10) :=
  preload_barrier_spec 10 imgs10 (Finset.range 10) 3 rfl (by decide) (by decide)

/-- A tick never changes the score, the image list, the loaded map, or
the correct words. -/
lemma applyTick_fields (st : GState) :
    (applyTick st).score = st.score ∧ (applyTick st).images = st.images ∧
    (applyTick st).loaded = st.loaded ∧ (applyTick st).correctWords = st.correctWords := by
  unfold applyTick
  split_ifs <;> exact ⟨rfl, rfl, rfl, rfl⟩

/-- An armed tick that does not exhaust the clock keeps the round
running and decrements the time remaining. -/
lemma applyTick_running_step (st : GState)
    (hg : st.gameState = Phase.running)
    (hr : allImagesReady st.images st.loaded = true)
    (ht : ¬ st.timeLeft - 1 = 0) :
    (applyTick st).gameState = Phase.running ∧
    (applyTick st).timeLeft = st.timeLeft - 1 := by
  simp [applyTick, tickEnabled, hg, hr, ht]

/-- Iterating fewer ticks than the time remaining keeps the round
running, decrements the clock by the number of ticks, and preserves the
fields ticks never touch. -/
lemma applyTick_iter_running : ∀ (k : Nat) (st : GState),
    st.gameState = Phase.running →
    allImagesReady st.images st.loaded = true →
    k < st.timeLeft →
    (applyTick^[k] st).gameState = Phase.running ∧
    (applyTick^[k] st).timeLeft = st.timeLeft - k ∧
    (applyTick^[k] st).images = st.images ∧
    (applyTick^[k] st).loaded = st.loaded ∧
    (applyTick^[k] st).score = st.score ∧
    (applyTick^[k] st).correctWords = st.correctWords := by
  intro k
  induction k with
  | zero =>
      intro st hg _ _
      exact ⟨hg, by simp, rfl, rfl, rfl, rfl⟩
  | succ n ih =>
      intro st hg hr hk
      rw [Function.iterate_succ_apply]
      have hfields := applyTick_fields st
      have hstep := applyTick_running_step st hg hr (by omega)
      have hr2 : allImagesReady (applyTick st).images (applyTick st).loaded = true := by
        rw [hfields.2.1, hfields.2.2.1]; exact hr
      have hk2 : n < (applyTick st).timeLeft := by rw [hstep.2]; omega
      obtain ⟨g, t, im, lo, sc, cw⟩ := ih (applyTick st) hstep.1 hr2 hk2
      refine ⟨g, ?_, ?_, ?_, ?_, ?_⟩
      · rw [t, hstep.2]; omega
      · rw [im, hfields.2.1]
      · rw [lo, hfields.2.2.1]
      · rw [sc, hfields.1]
      · rw [cw, hfields.2.2.2]

/-- A tick on an already ended round changes nothing. -/
lemma applyTick_ended (st : GState) (h : st.gameState = Phase.ended) :
    applyTick st = st := by
  simp [applyTick, tickEnabled, h]

/-- Ready frames force a non-empty image list. -/
lemma allImagesReady_length_ne_zero (images : List String) (loaded : Finset Nat) :
    allImagesReady images loaded = true → images.length ≠ 0 := by
  intro hal h
  rw [allImagesReady, if_pos h] at hal
  exact Bool.false_ne_true hal

/-- Claim C5: an armed tick from one second remaining performs the
timeout transition; and from a truly active round with the full 20
seconds, 20 ticks with no correct guess end the round by timeout with
the score unchanged, the correct answer pair exposed by the render, and
no further tick applied. -/
theorem timeout_scenario_spec (st : GState)
    (hg : st.gameState = Phase.running)
    (hr : allImagesReady st.images st.loaded = true)
    (ht : st.timeLeft = 20)
    (hcw : 0 < st.correctWords.length) :
    (∀ st2 : GState, tickEnabled st2 = true → st2.timeLeft - 1 = 0 →
       (applyTick st2).gameState = Phase.ended ∧ (applyTick st2).endedByTimeout = true) ∧
    (applyTick^[20] st).gameState = Phase.ended ∧
    (applyTick^[20] st).endedByTimeout = true ∧
    (applyTick^[20] st).score = st.score ∧
    exposedAnswer (applyTick^[20] st) =
      some (st.correctWords.getD 0 "", st.correctWords.getD 1 "") ∧
    applyTick (applyTick^[20] st) = applyTick^[20] st := by
  have hone : ∀ st2 : GState, tickEnabled st2 = true → st2.timeLeft - 1 = 0 →
      (applyTick st2).gameState = Phase.ended ∧ (applyTick st2).endedByTimeout = true := by
    intro st2 he h0
    simp [applyTick, he, h0]
  obtain ⟨g19, t19, im19, lo19, sc19, cw19⟩ := applyTick_iter_running 19 st hg hr (by omega)
  have hr19 : allImagesReady (applyTick^[19] st).images (applyTick^[19] st).loaded = true := by
    rw [im19, lo19]; exact hr
  have ht19 : (applyTick^[19] st).timeLeft - 1 = 0 := by rw [t19]; omega
  have hen : tickEnabled (applyTick^[19] st) = true := by
    unfold tickEnabled
    rw [g19, im19, lo19, hr]
    rfl
  have e20 : applyTick^[20] st = applyTick (applyTick^[19] st) :=
    Function.iterate_succ_apply' applyTick 19 st
  have hfields := applyTick_fields (applyTick^[19] st)
  have hend : (applyTick^[20] st).gameState = Phase.ended := by
    rw [e20]; exact (hone (applyTick^[19] st) hen ht19).1
  have hto : (applyTick^[20] st).endedByTimeout = true := by
    rw [e20]; exact (hone (applyTick^[19] st) hen ht19).2
  have hsc : (applyTick^[20] st).score = st.score := by
    rw [e20, hfields.1, sc19]
  have him : (applyTick^[20] st).images = st.images := by
    rw [e20, hfields.2.1, im19]
  have hcw20 : (applyTick^[20] st).correctWords = st.correctWords := by
    rw [e20, hfields.2.2.2, cw19]
  refine ⟨hone, hend, hto, hsc, ?_, ?_⟩
  · rw [exposedAnswer, if_pos, hcw20]
    refine ⟨?_, hend, ?_⟩
    · rw [him]
      exact allImagesReady_length_ne_zero st.images st.loaded hr
    · rw [hcw20]; exact hcw
  · exact applyTick_ended (applyTick^[20] st) hend

/-- Witness for C5: running the concrete round for 20 ticks with no
correct guess. -/
theorem timeout_scenario_spec_witness :
    (∀ st2 : GState, tickEnabled st2 = true → st2.timeLeft - 1 = 0 →
       (applyTick st2).gameState = Phase.ended ∧ (applyTick st2).endedByTimeout = true) ∧
    (applyTick^[20] exRun).gameState = Phase.ended ∧
    (applyTick^[20] exRun).endedByTimeout = true ∧
    (applyTick^[20] exRun).score = exRun.score ∧
    exposedAnswer (applyTick^[20] exRun) =
      some (exRun.correctWords.getD 0 "", exRun.correctWords.getD 1 "") ∧
    applyTick (applyTick^[20] exRun) = applyTick^[20] exRun :=
  timeout_scenario_spec exRun rfl (by decide) rfl (by decide)

/-- A concrete truly active round with one second remaining, at which a
guess has just been submitted and its evaluation is still in flight. -/
def exLate : GState :=
  { exRun with timeLeft := 1 }

/-- Claim C2 evidence: the guess is submitted while `running`; the
timeout tick then ends the round (and stores `timeLeft = 20`); yet when
the correct evaluation resolves afterwards, `checkAnswer` has no state
re-check, so it still applies `addToScore(timeLeftRef.current * 10)` —
awarding `20 * 10 = 200` points after the round already ended — and
issues a second `stopGame`. -/
theorem late_correct_evaluation_not_discarded :
    exLate.gameState = Phase.running ∧
    (applyTick exLate).gameState = Phase.ended ∧
    (applyTick exLate).endedByTimeout = true ∧
    (applyTick exLate).score = 0 ∧
    (checkAnswer (applyTick exLate) EvalOutcome.correct).1.score = 200 ∧
    (checkAnswer (applyTick exLate) EvalOutcome.correct).1.gameState = Phase.ended := by
  decide

/-- Claim C7 evidence: when the awaited `fetchImage` throws during a
round start, the component is left with `gameState = loading` — it does
not return to the idle phase and no error state exists to surface. -/
theorem startGame_failure_stuck_loading (st : GState) (e : String) :
    (startGame st (Except.error e)).gameState = Phase.loading ∧
    (startGame st (Except.error e)).gameState ≠ Phase.initial :=
  ⟨rfl, fun h => Phase.noConfusion h⟩

/-- Claim C8 evidence: a failed evaluation leaves the state completely
unchanged (so an active round stays active) and surfaces nothing to the
caller — the `catch` block only logs to the console. -/
theorem evaluation_failure_swallowed (st : GState) :
    checkAnswer st EvalOutcome.failed = (st, none) :=
  rfl

/-- A concrete state in the active-awaiting-preload sub-phase with no
frame yet loaded. -/
def exC9 : GState :=
  { exRun with loaded := ∅ }

/-- Counterexample to claim C9 as stated: in the active-awaiting-preload
sub-phase (`running`, `allImagesReady` false) `handleAction` does call
the evaluator — its guard tests only `isGameRunning` — and a positive
result changes the state, awarding `timeLeft * 10 = 200` points before
the reveal has started. -/
theorem guess_during_preload_calls_evaluator :
    exC9.gameState = Phase.running ∧
    allImagesReady exC9.images exC9.loaded = false ∧
    (handleAction exC9 EvalOutcome.correct).2 = true ∧
    (handleAction exC9 EvalOutcome.correct).1.score = 200 := by
  decide

/-- Claim C9 amended: `handleAction` forwards the guess to the evaluator
exactly when `gameState = running` — including the
active-awaiting-preload sub-phase — and in any other phase (`initial`,
`loading`, `ended`) it makes no evaluator call and changes no state. -/
theorem handleAction_guard_spec (st : GState) (o : EvalOutcome) :
    (st.gameState = Phase.running → handleAction st o = ((checkAnswer st o).1, true)) ∧
    (st.gameState ≠ Phase.running → handleAction st o = (st, false)) := by
  constructor
  · intro h; simp [handleAction, h]
  · intro h; simp [handleAction, h]

/-- Witness for the amended C9 at a concrete `ended` state: no evaluator
call and no state change. -/
theorem handleAction_guard_spec_witness :
    ({ exRun with gameState := Phase.ended } : GState).gameState ≠ Phase.running ∧
    handleAction { exRun with gameState := Phase.ended } EvalOutcome.correct =
      ({ exRun with gameState := Phase.ended }, false) :=
  ⟨by decide,
   (handleAction_guard_spec { exRun with gameState := Phase.ended } EvalOutcome.correct).2
     (by decide)⟩

end Guesscasso
